import Mathlib

/-!
Verification development for the light-print-cloud backend
(src/backend/main.py): a Flask app exposing printer listing, document
upload/print/preview, file serving and job-status routes over CUPS and a
LibreOffice conversion subprocess.

The embedding models each route handler as a pure Lean function from the
request form data and an environment value (describing the behaviour of
the external CUPS service and of the conversion subprocess on this
request) to an outcome (an HTTP response or an uncaught exception) paired
with a trace of side effects (file saves, conversion invocations, job
submissions). String-level helpers model the Python primitives the
handlers use: str.rsplit with a dot, str.lower, os.path.splitext, int().
-/

namespace LightPrint

/-! ## String primitives modelled from Python -/

/-- Model of Python str.lower restricted to ASCII letters: uppercase
ASCII letters are mapped to lowercase, every other character is kept.
Filenames compared against the ASCII extension set only need this case. -/
def pyLowerChar (c : Char) : Char :=
  if 'A' ≤ c ∧ c ≤ 'Z' then Char.ofNat (c.toNat + 32) else c

/-- Lowercase a character list with pyLowerChar. -/
def pyLower (cs : List Char) : List Char := cs.map pyLowerChar

/-- Split a character list at its LAST dot: returns some (before, after)
when a dot occurs, none otherwise. This models the pair produced by
Python filename.rsplit with separator dot and maxsplit 1, together with
the guard testing that a dot occurs in the string. -/
def lastDotSplit : List Char → Option (List Char × List Char)
  | [] => none
  | c :: cs =>
    match lastDotSplit cs with
    | some (pre, post) => some (c :: pre, post)
    | none => if c = '.' then some ([], cs) else none

/-- Model of os.path.splitext on a plain filename (no directory part):
split at the last dot, except that a dot preceded only by dots does not
start an extension, matching the Python behaviour on names such as
".docx" whose splitext extension is empty. -/
def splitext (s : List Char) : List Char × List Char :=
  match lastDotSplit s with
  | none => (s, [])
  | some (pre, post) =>
    if pre.all (fun c => c = '.') then (s, []) else (pre, '.' :: post)

/-- Digit-run parser used by the int() model: all characters are ASCII
digits and the run is nonempty. -/
def digitRun (cs : List Char) : Option Nat :=
  if cs ≠ [] ∧ cs.all Char.isDigit then
    some (cs.foldl (fun a c => 10 * a + (c.toNat - 48)) 0)
  else none

/-- Python whitespace stripped by int() around a numeric literal,
restricted to the common ASCII whitespace characters. -/
def isPySpace (c : Char) : Bool :=
  c = ' ' ∨ c = '\t' ∨ c = '\n' ∨ c = '\r'

/-- Sign handling of the int() model: an optional leading plus or minus
followed by a nonempty digit run. -/
def pyIntOfChars : List Char → Option Int
  | '+' :: cs => (digitRun cs).map (fun n => (n : Int))
  | '-' :: cs => (digitRun cs).map (fun n => -(n : Int))
  | cs => (digitRun cs).map (fun n => (n : Int))

/-- Model of Python int() applied to a string: strip surrounding
whitespace, then an optional sign and a nonempty ASCII digit run; any
other shape raises ValueError, modelled as none. -/
def pyInt (s : String) : Option Int :=
  pyIntOfChars (((s.toList.dropWhile isPySpace).reverse.dropWhile isPySpace).reverse)

/-! ## Configuration and the extension check (main.py lines 8-23) -/

/-- ALLOWED_EXTENSIONS from main.py line 10. -/
def ALLOWED_EXTENSIONS : List String :=
  ["pdf", "txt", "png", "jpg", "jpeg", "gif", "doc", "docx"]

/-- allowed_file from main.py lines 21-23: a dot occurs in the filename
and the part after the last dot, lowercased, is in ALLOWED_EXTENSIONS. -/
def allowed_file (filename : String) : Bool :=
  match lastDotSplit filename.toList with
  | some (_, ext) => decide (String.mk (pyLower ext) ∈ ALLOWED_EXTENSIONS)
  | none => false

/-- The lowercased extension filename.rsplit at the last dot, lowercased
(main.py lines 108 and 169); the handlers only evaluate it after
allowed_file holds, so a dot is present there and the none fallback is
never reached. -/
def extLower (s : String) : String :=
  match lastDotSplit s.toList with
  | some (_, ext) => String.mk (pyLower ext)
  | none => ""

/-! ## Responses, outcomes, side-effect events -/

/-- Distinct JSON error message literals of main.py, one constructor per
string literal appearing in a jsonify error response relevant to the
modelled handlers. Two constructors are equal iff the source literals
are the same string. -/
inductive ErrMsg
  /-- Literal: No file part (print line 87, preview line 159). -/
  | noFilePart
  /-- Literal: No selected file (print line 98, preview line 162). -/
  | noSelectedFile
  /-- Literal: No printer selected (print line 100). -/
  | noPrinterSelected
  /-- Literal: File type not allowed (print line 152, preview line 196). -/
  | fileTypeNotAllowed
  /-- Literal: Failed to convert document for printing. (print line 122), used
  for CalledProcessError and FileNotFoundError alike. -/
  | printConvFailed
  /-- Literal: Failed to convert document to PDF. (preview line 183), the
  CalledProcessError case. -/
  | previewConvFailed
  /-- Literal: File conversion utility not found on server. (preview line
  186), the FileNotFoundError case. -/
  | convToolNotFound
  /-- Literal: Preview for this file type is not supported. (preview line 194). -/
  | previewNotSupported
  /-- Formatted literal: Printer NAME not found. (print line 129). -/
  | printerNotFound (name : String)
  /-- Literal: Could not connect to CUPS printing service. (print line 147). -/
  | cupsUnreachablePrint
  /-- Literal: An unexpected error occurred during printing. (print line 150). -/
  | unexpectedPrint
  /-- Literal: An unexpected error occurred while fetching printers. (line 44). -/
  | unexpectedPrinters
  /-- Literal: Could not connect to CUPS to check job status. (line 247). -/
  | cupsUnreachableJobs
  /-- Literal: An unexpected error occurred while checking job status. (line 250). -/
  | unexpectedJobs
deriving DecidableEq, Repr

/-- JSON (or template) response bodies the modelled routes produce. -/
inductive Resp
  /-- jsonify of an error object carrying one of the message literals. -/
  | err (msg : ErrMsg)
  /-- jsonify status success with the CUPS job id (print line 142). -/
  | printSuccess (job_id : Nat)
  /-- jsonify of the list of printer names (lines 37 and 41). -/
  | printerList (names : List String)
  /-- jsonify of job id, status string and reasons string (lines 235-239, 243). -/
  | jobStatus (job_id : Nat) (status : String) (reasons : String)
  /-- jsonify of a preview path (preview lines 180 and 190). -/
  | previewPath (path : String)
  /-- render_template of index.html (line 262). -/
  | indexHtml
  /-- send_from_directory of an existing static asset (line 259). -/
  | staticFile (path : String)
deriving DecidableEq, Repr

/-- Result of running a handler: an HTTP response with status code, or an
exception escaping the handler uncaught. -/
inductive Outcome
  /-- The handler returned body with the given HTTP status code. -/
  | resp (code : Nat) (body : Resp)
  /-- An exception propagated out of the handler uncaught. -/
  | raised
deriving DecidableEq, Repr

/-- Side effects a handler performs, in order. -/
inductive Event
  /-- file.save of the uploaded file at the given path (lines 105, 167). -/
  | saveFile (path : String)
  /-- subprocess.run of the LibreOffice conversion on the given source
  path (lines 115-118, 174-177). -/
  | convert (src : String)
  /-- conn.printFile submitting the given path to the given printer (line 141). -/
  | printFile (printer : String) (path : String)
deriving DecidableEq, Repr

/-- True exactly on conversion-invocation events. -/
def Event.isConvert : Event → Bool
  | Event.convert _ => true
  | _ => false

/-- True exactly on job-submission events. -/
def Event.isPrintFile : Event → Bool
  | Event.printFile _ _ => true
  | _ => false

/-! ## Environments describing the external collaborators -/

/-- Behaviour of the LibreOffice conversion subprocess invocation
(subprocess.run with check true) on this request. -/
inductive ConvResult
  /-- The process ran and exited with status zero. -/
  | ok
  /-- The process ran and exited nonzero: subprocess.CalledProcessError. -/
  | calledProcessError
  /-- The libreoffice binary is missing from the PATH: FileNotFoundError. -/
  | fileNotFound
deriving DecidableEq, Repr

/-- Behaviour of the CUPS connection and submission inside the print
handler try block (lines 125-141). -/
inductive CupsEnv
  /-- cups.Connection raised RuntimeError: the service is unreachable. -/
  | runtimeError
  /-- Some other exception was raised while connecting or enumerating
  printers, before any submission. -/
  | connectFails
  /-- Connection and enumeration succeeded with the given printer names;
  printFile then either returns a job id or raises a generic exception. -/
  | ok (printers : List String) (printResult : Except Unit Nat)
deriving Repr

/-- Full behaviour of the subprocess.run conversion invocation
(lines 115-118 and 174-177), including the exceptions neither handler
catches: ConvResult covers an exit with status zero and the two
exception kinds named in the except clauses, and otherException covers
every other exception subprocess.run can raise (for example
PermissionError while spawning), which no except clause of either
handler matches, so it propagates out of the handler uncaught. -/
inductive ConvOutcome
  /-- The process ran and exited with status zero. -/
  | ok
  /-- The process ran and exited nonzero: subprocess.CalledProcessError. -/
  | calledProcessError
  /-- The libreoffice binary is missing from the PATH: FileNotFoundError. -/
  | fileNotFound
  /-- Any other exception from subprocess.run, caught by neither handler. -/
  | otherException
deriving DecidableEq, Repr

/-- A caught conversion outcome viewed inside the full outcome type. -/
def ConvResult.lift : ConvResult → ConvOutcome
  | ConvResult.ok => ConvOutcome.ok
  | ConvResult.calledProcessError => ConvOutcome.calledProcessError
  | ConvResult.fileNotFound => ConvOutcome.fileNotFound

/-- Full external behaviour relevant to one print request: whether
file.save raises (lines 105 and 167 sit outside every try block, so any
exception there — say a missing upload directory, since ensure_dir only
runs under the main guard, or a permission error — propagates uncaught),
the full conversion outcome, and the CUPS behaviour. -/
structure PrintEnvFull where
  saveRaises : Bool
  conv : ConvOutcome
  cups : CupsEnv
deriving Repr

/-- Benign external behaviour of one print request: file.save succeeds
and the conversion subprocess either succeeds or raises one of the two
exception kinds the handler catches. The response-content and
event-ordering claims are stated over this restriction; the
uncaught-exception surface is stated over PrintEnvFull. -/
structure PrintEnv where
  conv : ConvResult
  cups : CupsEnv
deriving Repr

/-- Multipart form data of a print request (lines 86-95). A missing form
field is none; copies_raw is the raw string of the copies field, absent
meaning the integer default 1. -/
structure PrintForm where
  file_present : Bool
  filename : String
  printer : Option String
  copies_raw : Option String
  page_range : Option String
  paper_size : Option String
  color_mode : Option String
deriving DecidableEq, Repr

/-- Python truthiness of request.form.get on a string field: false for a
missing field (None) and for the empty string. -/
def truthy : Option String → Bool
  | none => false
  | some s => !s.isEmpty

/-- Value of int(request.form.get(copies, 1)): the default 1 when the
field is absent, otherwise the int() parse of the raw string, none
modelling an uncaught ValueError. -/
def copiesVal : Option String → Option Int
  | none => some 1
  | some s => pyInt s

/-- os.path.join of the upload folder and the client filename, for the
relative filenames the claims concern. -/
def uploadPath (filename : String) : String := "uploads/" ++ filename

/-- Path of the converted PDF: the convert folder joined with the
splitext base of the filename plus a pdf extension (lines 113-114, 178). -/
def convertedPdfPath (filename : String) : String :=
  "converts/" ++ String.mk (splitext filename.toList).1 ++ ".pdf"

/-! ## The print handler (main.py lines 83-152) -/

/-- Embedding of the CUPS try block of print_document (lines 124-150):
connect, enumerate printers, check the selected printer exists, submit
the file. RuntimeError yields the connection error response; any other
exception before submission yields the generic error; printFile either
returns the job id or raises a generic exception, both caught. -/
def submitToCups (printer_name : String) (file_to_print : String)
    (tr : List Event) (cups : CupsEnv) : Outcome × List Event :=
  match cups with
  | CupsEnv.runtimeError => (Outcome.resp 500 (Resp.err ErrMsg.cupsUnreachablePrint), tr)
  | CupsEnv.connectFails => (Outcome.resp 500 (Resp.err ErrMsg.unexpectedPrint), tr)
  | CupsEnv.ok printers printResult =>
    if printer_name ∈ printers then
      match printResult with
      | Except.ok job_id =>
        (Outcome.resp 200 (Resp.printSuccess job_id), tr ++ [Event.printFile printer_name file_to_print])
      | Except.error _ =>
        (Outcome.resp 500 (Resp.err ErrMsg.unexpectedPrint), tr ++ [Event.printFile printer_name file_to_print])
    else (Outcome.resp 404 (Resp.err (ErrMsg.printerNotFound printer_name)), tr)

/-- Embedding of print_document (lines 83-152), with its full exception
surface. Control flow matches the source: missing file part returns 400;
then the copies field is parsed by int() OUTSIDE any try block, so a
malformed value propagates an exception; empty filename and missing
printer return 400; a disallowed extension returns 400 with no save;
otherwise file.save runs outside any try block (an exception there
propagates uncaught); doc and docx extensions are then converted first
(either caught exception kind returns one shared 500 error, any other
subprocess exception propagates uncaught), and the file is submitted to
CUPS. The trace records attempted side effects, so a save or conversion
that raises still appears before the raised outcome. -/
def print_document_full (req : PrintForm) (env : PrintEnvFull) : Outcome × List Event :=
  if req.file_present = false then
    (Outcome.resp 400 (Resp.err ErrMsg.noFilePart), [])
  else
    match copiesVal req.copies_raw with
    | none => (Outcome.raised, [])
    | some _ =>
      if req.filename = "" then (Outcome.resp 400 (Resp.err ErrMsg.noSelectedFile), [])
      else if truthy req.printer = false then
        (Outcome.resp 400 (Resp.err ErrMsg.noPrinterSelected), [])
      else if allowed_file req.filename then
        let upload_path := uploadPath req.filename
        let tr0 := [Event.saveFile upload_path]
        if env.saveRaises then (Outcome.raised, tr0)
        else
          let file_ext := extLower req.filename
          let printer_name := req.printer.getD ""
          if file_ext = "doc" ∨ file_ext = "docx" then
            let tr1 := tr0 ++ [Event.convert upload_path]
            match env.conv with
            | ConvOutcome.ok =>
              submitToCups printer_name (convertedPdfPath req.filename) tr1 env.cups
            | ConvOutcome.calledProcessError =>
              (Outcome.resp 500 (Resp.err ErrMsg.printConvFailed), tr1)
            | ConvOutcome.fileNotFound =>
              (Outcome.resp 500 (Resp.err ErrMsg.printConvFailed), tr1)
            | ConvOutcome.otherException => (Outcome.raised, tr1)
          else submitToCups printer_name upload_path tr0 env.cups
      else (Outcome.resp 400 (Resp.err ErrMsg.fileTypeNotAllowed), [])

/-- The print handler under benign filesystem and subprocess behaviour:
file.save succeeds and subprocess.run raises at most the two exception
kinds the handler catches. This is the domain the response-content and
ordering claims quantify over. -/
def print_document (req : PrintForm) (env : PrintEnv) : Outcome × List Event :=
  print_document_full req
    { saveRaises := false, conv := env.conv.lift, cups := env.cups }

/-! ## The preview handler (main.py lines 155-196) -/

/-- Multipart form data of a preview request: only the file part. -/
structure PreviewForm where
  file_present : Bool
  filename : String
deriving DecidableEq, Repr

/-- Embedding of preview_document (lines 155-196), with its full
exception surface: validate the file part and filename, reject
disallowed extensions without saving, run file.save (outside any try
block, so an exception there propagates uncaught), then for doc and
docx convert — distinguishing CalledProcessError from FileNotFoundError
with two different 500 messages, while any other subprocess exception
propagates uncaught — for pdf return the upload path directly, and for
every other allowed extension return the unsupported-preview 400 error. -/
def preview_document_full (req : PreviewForm) (saveRaises : Bool)
    (conv : ConvOutcome) : Outcome × List Event :=
  if req.file_present = false then
    (Outcome.resp 400 (Resp.err ErrMsg.noFilePart), [])
  else if req.filename = "" then
    (Outcome.resp 400 (Resp.err ErrMsg.noSelectedFile), [])
  else if allowed_file req.filename then
    let upload_path := uploadPath req.filename
    let tr0 := [Event.saveFile upload_path]
    if saveRaises then (Outcome.raised, tr0)
    else
      let file_ext := extLower req.filename
      if file_ext = "doc" ∨ file_ext = "docx" then
        let tr1 := tr0 ++ [Event.convert upload_path]
        match conv with
        | ConvOutcome.ok =>
          (Outcome.resp 200 (Resp.previewPath ("/api/converted/" ++ String.mk (splitext req.filename.toList).1 ++ ".pdf")), tr1)
        | ConvOutcome.calledProcessError =>
          (Outcome.resp 500 (Resp.err ErrMsg.previewConvFailed), tr1)
        | ConvOutcome.fileNotFound =>
          (Outcome.resp 500 (Resp.err ErrMsg.convToolNotFound), tr1)
        | ConvOutcome.otherException => (Outcome.raised, tr1)
      else if file_ext = "pdf" then
        (Outcome.resp 200 (Resp.previewPath ("/api/uploads/" ++ req.filename)), tr0)
      else (Outcome.resp 400 (Resp.err ErrMsg.previewNotSupported), tr0)
  else (Outcome.resp 400 (Resp.err ErrMsg.fileTypeNotAllowed), [])

/-- The preview handler under benign filesystem and subprocess
behaviour: file.save succeeds and subprocess.run raises at most the two
exception kinds the handler catches. -/
def preview_document (req : PreviewForm) (conv : ConvResult) : Outcome × List Event :=
  preview_document_full req false conv.lift

/-! ## Printer listing (main.py lines 30-44) -/

/-- Behaviour of the CUPS connection inside get_printers. -/
inductive PrintersEnv
  /-- Connection and enumeration succeeded with these printer names. -/
  | ok (printers : List String)
  /-- cups.Connection raised RuntimeError: no running CUPS server. -/
  | runtimeError
  /-- Some other exception was raised. -/
  | otherException
deriving Repr

/-- Embedding of get_printers (lines 30-44): on success return the
printer names, on RuntimeError return the hardcoded dummy list with
status 200, on any other exception return a 500 error. -/
def get_printers (env : PrintersEnv) : Outcome :=
  match env with
  | PrintersEnv.ok printers => Outcome.resp 200 (Resp.printerList printers)
  | PrintersEnv.runtimeError =>
    Outcome.resp 200 (Resp.printerList ["dummy_printer_1", "dummy_printer_2"])
  | PrintersEnv.otherException => Outcome.resp 500 (Resp.err ErrMsg.unexpectedPrinters)

/-! ## Job status (main.py lines 211-250) -/

/-- Attributes of one CUPS job as returned by conn.getJobs: the job-state
code (absent modelling a missing key) and the job-state-reasons field. -/
structure JobAttrs where
  jobState : Option Int
  stateReasons : Option String
deriving DecidableEq, Repr

/-- Behaviour of the CUPS connection inside get_job_status; ok carries
the full job dictionary (all jobs, not scoped to a user) as an
association list from job id to attributes. -/
inductive JobsEnv
  /-- Connection and job listing succeeded with this job table. -/
  | ok (jobs : List (Nat × JobAttrs))
  /-- cups.Connection raised RuntimeError. -/
  | runtimeError
  /-- Some other exception was raised. -/
  | otherException
deriving Repr

/-- The status_map dictionary of lines 224-232 as an association list. -/
def status_map : List (Int × String) :=
  [(3, "pending"), (4, "pending-held"), (5, "processing"),
   (6, "processing-stopped"), (7, "canceled"), (8, "aborted"), (9, "completed")]

/-- status_map.get(job_state, unknown) of line 233, with a missing
job-state key (None) also falling to the default. -/
def statusOf (job_state : Option Int) : String :=
  match job_state with
  | none => "unknown"
  | some c => (status_map.lookup c).getD "unknown"

/-- Embedding of get_job_status (lines 211-250): list all jobs; if the id
is present report the mapped status and the state reasons (defaulted to
the literal none); if absent report completed with the
not-found-in-active-jobs reason; connection errors give 500 responses. -/
def get_job_status (job_id : Nat) (env : JobsEnv) : Outcome :=
  match env with
  | JobsEnv.runtimeError => Outcome.resp 500 (Resp.err ErrMsg.cupsUnreachableJobs)
  | JobsEnv.otherException => Outcome.resp 500 (Resp.err ErrMsg.unexpectedJobs)
  | JobsEnv.ok jobs =>
    match jobs.lookup job_id with
    | some attrs =>
      Outcome.resp 200 (Resp.jobStatus job_id (statusOf attrs.jobState)
        (attrs.stateReasons.getD "none"))
    | none =>
      Outcome.resp 200 (Resp.jobStatus job_id "completed" "not-found-in-active-jobs")

/-! ## Routing of /api/jobs paths and the catch-all route (lines 211-212
and 253-262) -/

/-- Digit semantics of the route-matching regex engine and of int().
The int converter of the job route matches one or more characters of
the regex digit class, which under default Unicode matching is the
Unicode decimal-digit category Nd, and int() then maps each matched
character to its decimal value; the exact Nd set depends on the Unicode
version of the Python build, so the embedding carries the digit
predicate and the per-character value as data, pinned down on ASCII
where every Unicode version agrees. -/
structure DigitModel where
  /-- Membership in the regex digit class (Unicode category Nd). -/
  isDigit : Char → Bool
  /-- Decimal value of a digit character, as int() uses it. -/
  val : Char → Nat
  /-- Nd contains the ASCII digits. -/
  ascii_isDigit : ∀ c : Char, Char.isDigit c = true → isDigit c = true
  /-- On ASCII digits the decimal value is the usual one. -/
  ascii_val : ∀ c : Char, Char.isDigit c = true → val c = c.toNat - 48

/-- The ASCII digits with their usual values: the restriction of every
digit model, sufficient for concrete segments made of ASCII characters. -/
def asciiDigits : DigitModel where
  isDigit := Char.isDigit
  val c := c.toNat - 48
  ascii_isDigit := fun _ h => h
  ascii_val := fun _ _ => rfl

/-- Flask int-converter match on a path segment: one or more characters
of the digit class. A signed, empty or not-all-digits segment does not
match, and the request falls through to later rules. -/
def isIntSegment (dm : DigitModel) (s : String) : Bool :=
  !s.isEmpty && s.toList.all dm.isDigit

/-- Numeric value of a matched digit segment, as the int converter
produces it from the per-character decimal values. -/
def intSegmentVal (dm : DigitModel) (s : String) : Nat :=
  s.toList.foldl (fun a c => 10 * a + dm.val c) 0

/-- Which handler a GET request with path api/jobs/SEG dispatches to.
Among the registered routes, only the rule with the int converter and
the catch-all path rule can match such a path, so the request runs the
job-status handler when the segment matches the digit class and
otherwise falls through to the serve handler with the full path. -/
inductive Dispatch
  /-- The job-status route matched with this converted id. -/
  | jobHandler (job_id : Nat)
  /-- No API route matched; the catch-all serve route receives the path. -/
  | fallback (path : String)
deriving DecidableEq, Repr

/-- Routing decision for a GET request whose path is api/jobs/SEG with
SEG a single segment (no further slash). -/
def routeApiJobs (dm : DigitModel) (seg : String) : Dispatch :=
  if isIntSegment dm seg then Dispatch.jobHandler (intSegmentVal dm seg)
  else Dispatch.fallback ("api/jobs/" ++ seg)

/-- Embedding of serve (lines 253-262): a nonempty path naming an
existing static asset is served from the static folder; every other path
renders index.html. Both replies carry HTTP status 200. The predicate
staticExists models os.path.exists on the static folder. -/
def serve (path : String) (staticExists : String → Bool) : Outcome :=
  if path ≠ "" ∧ staticExists path then Outcome.resp 200 (Resp.staticFile path)
  else Outcome.resp 200 Resp.indexHtml

/-- Run the dispatch decision of routeApiJobs against the environments of
the two reachable handlers. -/
def runApiJobs (dm : DigitModel) (seg : String) (staticExists : String → Bool)
    (env : JobsEnv) : Outcome :=
  match routeApiJobs dm seg with
  | Dispatch.jobHandler job_id => get_job_status job_id env
  | Dispatch.fallback path => serve path staticExists

/-! ## Sample concrete inputs used by witnesses -/

/-- Sample print form: a docx upload with a printer and default options. -/
def reqDoc : PrintForm :=
  { file_present := true, filename := "report.docx", printer := some "office",
    copies_raw := none, page_range := none, paper_size := none, color_mode := none }

/-- Sample print form with a well-formed filename whose extension is
outside the allowed set. -/
def reqBadExt : PrintForm :=
  { file_present := true, filename := "tool.exe", printer := some "office",
    copies_raw := none, page_range := none, paper_size := none, color_mode := none }

/-- Sample print form with no file part. -/
def reqNoFile : PrintForm :=
  { file_present := false, filename := "report.pdf", printer := some "office",
    copies_raw := none, page_range := none, paper_size := none, color_mode := none }

/-- Sample print form with an empty filename. -/
def reqEmptyName : PrintForm :=
  { file_present := true, filename := "", printer := some "office",
    copies_raw := none, page_range := none, paper_size := none, color_mode := none }

/-- Sample print form with no printer selected. -/
def reqNoPrinter : PrintForm :=
  { file_present := true, filename := "report.pdf", printer := none,
    copies_raw := none, page_range := none, paper_size := none, color_mode := none }

/-- Sample print form with a pdf upload and a well-formed copies field. -/
def reqPdf : PrintForm :=
  { file_present := true, filename := "report.pdf", printer := some "office",
    copies_raw := some "2", page_range := none, paper_size := none, color_mode := none }

/-- Sample CUPS behaviour: the office printer exists and submission
assigns job id 11. -/
def cupsOffice : CupsEnv := CupsEnv.ok ["office"] (Except.ok 11)

/-- Sample environment: conversion succeeds, CUPS knows the office
printer and assigns job id 11. -/
def envOk : PrintEnv :=
  { conv := ConvResult.ok, cups := cupsOffice }

/-- Sample environment where the conversion subprocess exits nonzero. -/
def envConvErr : PrintEnv :=
  { conv := ConvResult.calledProcessError, cups := CupsEnv.ok ["office"] (Except.ok 11) }

/-- Sample environment where the conversion binary is missing. -/
def envConvMissing : PrintEnv :=
  { conv := ConvResult.fileNotFound, cups := CupsEnv.ok ["office"] (Except.ok 11) }

/-- Sample full environment: benign save and conversion, office CUPS. -/
def envFullBenign : PrintEnvFull :=
  { saveRaises := false, conv := ConvOutcome.ok, cups := cupsOffice }

/-- Sample full environment where file.save raises. -/
def envFullSaveRaises : PrintEnvFull :=
  { saveRaises := true, conv := ConvOutcome.ok, cups := cupsOffice }

/-- Sample full environment where subprocess.run raises an exception of
neither caught kind. -/
def envFullConvRaises : PrintEnvFull :=
  { saveRaises := false, conv := ConvOutcome.otherException, cups := cupsOffice }

/-- Sample job attributes: state code 5 with a reasons string. -/
def attrsProcessing : JobAttrs := { jobState := some 5, stateReasons := some "job-printing" }

/-- Sample preview form: a docx upload. -/
def reqPrevDoc : PreviewForm := { file_present := true, filename := "report.docx" }

/-- Sample print form whose copies field holds the non-numeric string
abc and whose filename is empty. -/
def reqBadCopiesEmptyName : PrintForm :=
  { file_present := true, filename := "", printer := some "p",
    copies_raw := some "abc", page_range := none, paper_size := none, color_mode := none }

/-- Sample print form whose copies field holds the non-numeric string
abc, with an otherwise well-formed pdf upload. -/
def reqBadCopies : PrintForm :=
  { file_present := true, filename := "a.pdf", printer := some "p",
    copies_raw := some "abc", page_range := none, paper_size := none, color_mode := none }

/-! ## Helper lemmas -/

/-- lastDotSplit returns none exactly on dot-free strings. -/
theorem lastDotSplit_eq_none_iff (l : List Char) :
    lastDotSplit l = none ↔ '.' ∉ l := by
  induction l with
  | nil => simp [lastDotSplit]
  | cons c cs ih =>
    cases h : lastDotSplit cs with
    | some pq =>
      obtain ⟨p, q⟩ := pq
      have hmem : '.' ∈ cs := by
        by_contra hx
        have hn := ih.mpr hx
        rw [hn] at h
        exact absurd h (by simp)
      simp [lastDotSplit, h, hmem]
    | none =>
      have hno := ih.mp h
      by_cases hc : c = '.'
      · simp [lastDotSplit, h, hc]
      · simp [lastDotSplit, h, hc, hno, Ne.symm hc]

/-- Characterisation of lastDotSplit: it returns some (pre, post) exactly
when the list decomposes as pre, a dot, and a dot-free tail post. -/
theorem lastDotSplit_eq_some_iff (l : List Char) : ∀ pre post : List Char,
    lastDotSplit l = some (pre, post) ↔ l = pre ++ '.' :: post ∧ '.' ∉ post := by
  induction l with
  | nil =>
    intro pre post
    constructor
    · intro hx; exact absurd hx (by simp [lastDotSplit])
    · rintro ⟨hEq, -⟩
      exact absurd hEq.symm (by simp)
  | cons c cs ih =>
    intro pre post
    cases h : lastDotSplit cs with
    | some pq =>
      obtain ⟨p, q⟩ := pq
      obtain ⟨hdec, hnq⟩ := (ih p q).mp h
      simp only [lastDotSplit, h]
      constructor
      · intro hx
        simp only [Option.some.injEq, Prod.mk.injEq] at hx
        obtain ⟨h1, h2⟩ := hx
        subst h1; subst h2
        exact ⟨by simp [hdec], hnq⟩
      · rintro ⟨hEq, hNo⟩
        cases pre with
        | nil =>
          simp only [List.nil_append, List.cons.injEq] at hEq
          obtain ⟨hc, hcs⟩ := hEq
          exfalso
          apply hNo
          rw [← hcs, hdec]
          simp
        | cons c' pre' =>
          simp only [List.cons_append, List.cons.injEq] at hEq
          obtain ⟨hc, hcs⟩ := hEq
          have hsome := (ih pre' post).mpr ⟨hcs, hNo⟩
          rw [h] at hsome
          simp only [Option.some.injEq, Prod.mk.injEq] at hsome
          simp [hc, hsome.1, hsome.2]
    | none =>
      have hno := (lastDotSplit_eq_none_iff cs).mp h
      simp only [lastDotSplit, h]
      by_cases hc : c = '.'
      · subst hc
        simp only [if_pos rfl]
        constructor
        · intro hx
          simp only [Option.some.injEq, Prod.mk.injEq] at hx
          obtain ⟨rfl, rfl⟩ := hx
          exact ⟨rfl, hno⟩
        · rintro ⟨hEq, hNo⟩
          cases pre with
          | nil =>
            simp only [List.nil_append, List.cons.injEq] at hEq
            simp [hEq.2]
          | cons c' pre' =>
            simp only [List.cons_append, List.cons.injEq] at hEq
            exfalso
            apply hno
            rw [hEq.2]
            simp
      · simp only [if_neg hc]
        constructor
        · intro hx; exact absurd hx (by simp)
        · rintro ⟨hEq, hNo⟩
          exfalso
          cases pre with
          | nil =>
            simp only [List.nil_append, List.cons.injEq] at hEq
            exact hc hEq.1
          | cons c' pre' =>
            simp only [List.cons_append, List.cons.injEq] at hEq
            apply hno
            rw [hEq.2]
            simp

/-- The first component of a submitToCups result is always a response,
never an uncaught exception. -/
theorem submitToCups_fst_ne_raised (p f : String) (tr : List Event) (cups : CupsEnv) :
    (submitToCups p f tr cups).1 ≠ Outcome.raised := by
  cases cups with
  | runtimeError => simp [submitToCups]
  | connectFails => simp [submitToCups]
  | ok printers pr =>
    by_cases hm : p ∈ printers
    · cases pr <;> simp [submitToCups, hm]
    · simp [submitToCups, hm]

/-! ## Claim theorems -/

/-- C6: a printer-listing request during which the CUPS connection fails
with RuntimeError returns HTTP 200 carrying exactly the two-element list
of dummy printer names, not an error response. -/
theorem printers_dummy_fallback :
    get_printers PrintersEnv.runtimeError
      = Outcome.resp 200 (Resp.printerList ["dummy_printer_1", "dummy_printer_2"]) := rfl

/-- C8: a job-status request whose id is absent from the job table
returned by the service (queried over all jobs) answers HTTP 200 with
status completed and reasons not-found-in-active-jobs. -/
theorem job_absent_reports_completed (job_id : Nat) (jobs : List (Nat × JobAttrs))
    (h : jobs.lookup job_id = none) :
    get_job_status job_id (JobsEnv.ok jobs)
      = Outcome.resp 200 (Resp.jobStatus job_id "completed" "not-found-in-active-jobs") := by
  simp [get_job_status, h]

/-- Witness for C8 at job id 42 against a table holding only job 7. -/
theorem job_absent_reports_completed_witness :
    get_job_status 42 (JobsEnv.ok [(7, attrsProcessing)])
      = Outcome.resp 200 (Resp.jobStatus 42 "completed" "not-found-in-active-jobs") :=
  job_absent_reports_completed 42 [(7, attrsProcessing)] (by decide)

/-- The extension check accepts exactly the filenames decomposing as a
prefix, a dot, and a dot-free suffix whose lowercasing is allowed. -/
theorem allowed_file_iff (s : String) :
    allowed_file s = true ↔
      ∃ pre post, s.toList = pre ++ '.' :: post ∧ '.' ∉ post ∧
        String.mk (pyLower post) ∈ ALLOWED_EXTENSIONS := by
  cases h : lastDotSplit s.toList with
  | none =>
    simp only [allowed_file, h]
    constructor
    · intro hx; exact absurd hx (by simp)
    · rintro ⟨pre, post, hEq, hNo, -⟩
      have hsome := (lastDotSplit_eq_some_iff s.toList pre post).mpr ⟨hEq, hNo⟩
      rw [h] at hsome
      exact absurd hsome (by simp)
  | some pq =>
    obtain ⟨pre0, ext⟩ := pq
    obtain ⟨hdec, hnq⟩ := (lastDotSplit_eq_some_iff s.toList pre0 ext).mp h
    simp only [allowed_file, h]
    constructor
    · intro hx
      exact ⟨pre0, ext, hdec, hnq, by simpa using hx⟩
    · rintro ⟨pre, post, hEq, hNo, hMem⟩
      have hsome := (lastDotSplit_eq_some_iff s.toList pre post).mpr ⟨hEq, hNo⟩
      rw [h] at hsome
      simp only [Option.some.injEq, Prod.mk.injEq] at hsome
      obtain ⟨h1, h2⟩ := hsome
      subst h2
      simpa using hMem

/-- C9: the extension check accepts a filename iff it contains a dot and
the substring after its last dot, lowercased, lies in the allowed set;
consequently the check is case-insensitive and only the final suffix
matters: A.DOCX is accepted, a.pdf.exe is rejected, a.exe.pdf is
accepted. -/
theorem allowed_file_characterisation :
    (∀ s : String, allowed_file s = true ↔
        ∃ pre post, s.toList = pre ++ '.' :: post ∧ '.' ∉ post ∧
          String.mk (pyLower post) ∈ ALLOWED_EXTENSIONS) ∧
    allowed_file "A.DOCX" = true ∧
    allowed_file "a.pdf.exe" = false ∧
    allowed_file "a.exe.pdf" = true :=
  ⟨allowed_file_iff, by decide, by decide, by decide⟩

/-- C10: for any digit semantics of the regex engine (in particular the
true Unicode Nd class), a GET request for path api/jobs/SEG where SEG
does not match the int converter — it is empty or holds a character
outside the digit class, so it is not a decimal integer — never reaches
the job-status handler: the request falls through to the catch-all
route, which (the static folder holding no asset at that path) renders
the index page with HTTP 200, not a JSON error and not a 404. -/
theorem nonint_job_path_serves_index (dm : DigitModel) (seg : String)
    (staticExists : String → Bool) (env : JobsEnv)
    (h1 : isIntSegment dm seg = false)
    (h2 : staticExists ("api/jobs/" ++ seg) = false) :
    routeApiJobs dm seg = Dispatch.fallback ("api/jobs/" ++ seg) ∧
    runApiJobs dm seg staticExists env = Outcome.resp 200 Resp.indexHtml := by
  have hr : routeApiJobs dm seg = Dispatch.fallback ("api/jobs/" ++ seg) := by
    simp [routeApiJobs, h1]
  refine ⟨hr, ?_⟩
  simp [runApiJobs, hr, serve, h2]

/-- Witness for C10 at the ASCII segment abc — rejected by the digit
class of every Unicode version — with an empty static folder. -/
theorem nonint_job_path_serves_index_witness :
    routeApiJobs asciiDigits "abc" = Dispatch.fallback ("api/jobs/" ++ "abc") ∧
    runApiJobs asciiDigits "abc" (fun _ => false) (JobsEnv.ok [])
      = Outcome.resp 200 Resp.indexHtml :=
  nonint_job_path_serves_index asciiDigits "abc" (fun _ => false) (JobsEnv.ok [])
    (by decide) rfl

/-- C2 counterexample: the empty filename contains no dot, yet the
preview handler answers it with the no-selected-file error, which is a
different response from the file-type-not-allowed error the claim
requires. -/
theorem filetype_rejection_counterexample :
    ('.' ∉ ("" : String).toList) ∧
    (preview_document { file_present := true, filename := "" } ConvResult.ok).1
      = Outcome.resp 400 (Resp.err ErrMsg.noSelectedFile) ∧
    Outcome.resp 400 (Resp.err ErrMsg.noSelectedFile)
      ≠ Outcome.resp 400 (Resp.err ErrMsg.fileTypeNotAllowed) := by
  decide

/-- C2 amended: for print and preview requests that pass the validations
preceding the extension check (file part present, filename nonempty, and
for print a truthy printer and a well-formed copies field), a filename
failing the extension check is answered with the file-type-not-allowed
error and the handler performs no side effect: in particular no file is
written. -/
theorem filetype_rejection_amended :
    (∀ (req : PreviewForm) (conv : ConvResult),
        req.file_present = true → req.filename ≠ "" →
        allowed_file req.filename = false →
        preview_document req conv
          = (Outcome.resp 400 (Resp.err ErrMsg.fileTypeNotAllowed), [])) ∧
    (∀ (req : PrintForm) (env : PrintEnv),
        req.file_present = true → copiesVal req.copies_raw ≠ none →
        req.filename ≠ "" → truthy req.printer = true →
        allowed_file req.filename = false →
        print_document req env
          = (Outcome.resp 400 (Resp.err ErrMsg.fileTypeNotAllowed), [])) := by
  constructor
  · intro req conv hf hn hna
    simp [preview_document, preview_document_full, ConvResult.lift, hf, hn, hna]
  · intro req env hf hc hn hp hna
    obtain ⟨cv, hcv⟩ := Option.ne_none_iff_exists'.mp hc
    simp [print_document, print_document_full, ConvResult.lift, hf, hcv, hn, hp, hna]

/-- Witness for the amended C2: a tool.exe upload is rejected with the
file-type-not-allowed error and an empty trace on both endpoints. -/
theorem filetype_rejection_amended_witness :
    preview_document { file_present := true, filename := "tool.exe" } ConvResult.ok
      = (Outcome.resp 400 (Resp.err ErrMsg.fileTypeNotAllowed), []) ∧
    print_document reqBadExt envOk
      = (Outcome.resp 400 (Resp.err ErrMsg.fileTypeNotAllowed), []) :=
  ⟨filetype_rejection_amended.1 _ _ rfl (by decide) (by decide),
   filetype_rejection_amended.2 reqBadExt envOk rfl (by decide) (by decide) (by decide) (by decide)⟩

/-- C5 counterexample: on a print request whose file part is present,
whose copies field holds the non-numeric string abc and whose filename
is empty, the claim requires validation check (2) to answer HTTP 400
no-selected-file; the handler instead propagates the uncaught ValueError
of the int() parse, which sits between checks (1) and (2). -/
theorem validation_order_counterexample :
    (print_document reqBadCopiesEmptyName envOk).1 = Outcome.raised ∧
    Outcome.raised ≠ Outcome.resp 400 (Resp.err ErrMsg.noSelectedFile) := by
  decide

/-- C5 amended: the four validation checks run in the claimed order,
each answering HTTP 400 before the next is evaluated, provided the
copies field (parsed by int() between checks (1) and (2)) is absent or a
well-formed integer; and regardless of the copies field, no file is
persisted unless all four checks pass. -/
theorem validation_order_amended (req : PrintForm) (env : PrintEnv) :
    (req.file_present = false →
      print_document req env = (Outcome.resp 400 (Resp.err ErrMsg.noFilePart), [])) ∧
    (copiesVal req.copies_raw ≠ none → req.file_present = true → req.filename = "" →
      print_document req env = (Outcome.resp 400 (Resp.err ErrMsg.noSelectedFile), [])) ∧
    (copiesVal req.copies_raw ≠ none → req.file_present = true → req.filename ≠ "" →
      truthy req.printer = false →
      print_document req env = (Outcome.resp 400 (Resp.err ErrMsg.noPrinterSelected), [])) ∧
    (copiesVal req.copies_raw ≠ none → req.file_present = true → req.filename ≠ "" →
      truthy req.printer = true → allowed_file req.filename = false →
      print_document req env = (Outcome.resp 400 (Resp.err ErrMsg.fileTypeNotAllowed), [])) ∧
    (¬(req.file_present = true ∧ req.filename ≠ "" ∧ truthy req.printer = true ∧
        allowed_file req.filename = true) →
      (print_document req env).2 = []) := by
  refine ⟨?_, ?_, ?_, ?_, ?_⟩
  · intro h1
    simp [print_document, print_document_full, ConvResult.lift, h1]
  · intro hc h1 h2
    obtain ⟨cv, hcv⟩ := Option.ne_none_iff_exists'.mp hc
    simp [print_document, print_document_full, ConvResult.lift, h1, hcv, h2]
  · intro hc h1 h2 h3
    obtain ⟨cv, hcv⟩ := Option.ne_none_iff_exists'.mp hc
    simp [print_document, print_document_full, ConvResult.lift, h1, hcv, h2, h3]
  · intro hc h1 h2 h3 h4
    obtain ⟨cv, hcv⟩ := Option.ne_none_iff_exists'.mp hc
    simp [print_document, print_document_full, ConvResult.lift, h1, hcv, h2, h3, h4]
  · intro hfail
    by_cases h1 : req.file_present = false
    · simp [print_document, print_document_full, ConvResult.lift, h1]
    · replace h1 : req.file_present = true := by
        cases hpres : req.file_present
        · exact absurd hpres h1
        · rfl
      cases hcv : copiesVal req.copies_raw with
      | none => simp [print_document, print_document_full, ConvResult.lift, h1, hcv]
      | some cv =>
        by_cases h2 : req.filename = ""
        · simp [print_document, print_document_full, ConvResult.lift, h1, hcv, h2]
        · by_cases h3 : truthy req.printer = false
          · simp [print_document, print_document_full, ConvResult.lift, h1, hcv, h2, h3]
          · replace h3 : truthy req.printer = true := by
              cases ht : truthy req.printer
              · exact absurd ht h3
              · rfl
            by_cases h4 : allowed_file req.filename
            · exact absurd ⟨h1, h2, h3, h4⟩ hfail
            · simp [print_document, print_document_full, ConvResult.lift, h1, hcv, h2, h3, h4]

/-- Witness for the amended C5 on four concrete failing requests, one
per validation check, and an empty trace for a failing request. -/
theorem validation_order_amended_witness :
    print_document reqNoFile envOk = (Outcome.resp 400 (Resp.err ErrMsg.noFilePart), []) ∧
    print_document reqEmptyName envOk
      = (Outcome.resp 400 (Resp.err ErrMsg.noSelectedFile), []) ∧
    print_document reqNoPrinter envOk
      = (Outcome.resp 400 (Resp.err ErrMsg.noPrinterSelected), []) ∧
    print_document reqBadExt envOk
      = (Outcome.resp 400 (Resp.err ErrMsg.fileTypeNotAllowed), []) ∧
    (print_document reqNoPrinter envOk).2 = [] :=
  ⟨(validation_order_amended reqNoFile envOk).1 rfl,
   (validation_order_amended reqEmptyName envOk).2.1 (by decide) rfl rfl,
   (validation_order_amended reqNoPrinter envOk).2.2.1 (by decide) rfl (by decide) rfl,
   (validation_order_amended reqBadExt envOk).2.2.2.1 (by decide) rfl (by decide) rfl (by decide),
   (validation_order_amended reqNoPrinter envOk).2.2.2.2 (by decide)⟩

/-- C3 counterexample: a print request with a well-formed file and
printer but the malformed copies value abc makes the print handler
propagate an uncaught exception instead of returning a JSON error. -/
theorem handler_no_uncaught_counterexample :
    (print_document reqBadCopies envOk).1 = Outcome.raised := by
  decide

/-- C3 amended: the handlers catch the CUPS exceptions and the two
conversion exception kinds their except clauses name, so under a benign
environment — file.save succeeds and the conversion subprocess raises at
most those two kinds — no modelled handler propagates an exception, for
the print handler provided its copies form value is absent or parses as
an integer. Each excluded condition does propagate uncaught: a malformed
copies value (the counterexample), a file.save exception in either
upload handler, and any other subprocess.run exception in the
conversion branch of either handler. -/
theorem handler_uncaught_surface :
    (∀ (req : PrintForm) (env : PrintEnvFull), copiesVal req.copies_raw ≠ none →
        env.saveRaises = false → env.conv ≠ ConvOutcome.otherException →
        (print_document_full req env).1 ≠ Outcome.raised) ∧
    (∀ (req : PreviewForm) (conv : ConvOutcome), conv ≠ ConvOutcome.otherException →
        (preview_document_full req false conv).1 ≠ Outcome.raised) ∧
    (∀ env, get_printers env ≠ Outcome.raised) ∧
    (∀ (job_id : Nat) (env : JobsEnv), get_job_status job_id env ≠ Outcome.raised) ∧
    (∀ (req : PrintForm) (env : PrintEnvFull), req.file_present = true →
        copiesVal req.copies_raw ≠ none → req.filename ≠ "" →
        truthy req.printer = true → allowed_file req.filename = true →
        env.saveRaises = true →
        (print_document_full req env).1 = Outcome.raised) ∧
    (∀ (req : PrintForm) (env : PrintEnvFull), req.file_present = true →
        copiesVal req.copies_raw ≠ none → req.filename ≠ "" →
        truthy req.printer = true → allowed_file req.filename = true →
        (extLower req.filename = "doc" ∨ extLower req.filename = "docx") →
        env.saveRaises = false → env.conv = ConvOutcome.otherException →
        (print_document_full req env).1 = Outcome.raised) ∧
    (∀ (req : PreviewForm) (conv : ConvOutcome), req.file_present = true →
        req.filename ≠ "" → allowed_file req.filename = true →
        (preview_document_full req true conv).1 = Outcome.raised) := by
  refine ⟨?_, ?_, ?_, ?_, ?_, ?_, ?_⟩
  · intro req env hc hsave hconv
    obtain ⟨cv, hcv⟩ := Option.ne_none_iff_exists'.mp hc
    by_cases h1 : req.file_present = false
    · simp [print_document_full, h1]
    · by_cases h2 : req.filename = ""
      · simp [print_document_full, h1, hcv, h2]
      · by_cases h3 : truthy req.printer = false
        · simp [print_document_full, h1, hcv, h2, h3]
        · by_cases h4 : allowed_file req.filename
          · by_cases h5 : extLower req.filename = "doc" ∨ extLower req.filename = "docx"
            · cases hc2 : env.conv with
              | ok =>
                have hstep : (print_document_full req env).1
                    = (submitToCups (req.printer.getD "") (convertedPdfPath req.filename)
                        [Event.saveFile (uploadPath req.filename),
                         Event.convert (uploadPath req.filename)] env.cups).1 := by
                  simp [print_document_full, h1, hcv, h2, h3, h4, h5, hsave, hc2]
                rw [hstep]
                exact submitToCups_fst_ne_raised _ _ _ _
              | calledProcessError =>
                simp [print_document_full, h1, hcv, h2, h3, h4, h5, hsave, hc2]
              | fileNotFound =>
                simp [print_document_full, h1, hcv, h2, h3, h4, h5, hsave, hc2]
              | otherException => exact absurd hc2 hconv
            · have hstep : (print_document_full req env).1
                  = (submitToCups (req.printer.getD "") (uploadPath req.filename)
                      [Event.saveFile (uploadPath req.filename)] env.cups).1 := by
                simp [print_document_full, h1, hcv, h2, h3, h4, h5, hsave]
              rw [hstep]
              exact submitToCups_fst_ne_raised _ _ _ _
          · simp [print_document_full, h1, hcv, h2, h3, h4]
  · intro req conv hconv
    by_cases h1 : req.file_present = false
    · simp [preview_document_full, h1]
    · by_cases h2 : req.filename = ""
      · simp [preview_document_full, h1, h2]
      · by_cases h4 : allowed_file req.filename
        · by_cases h5 : extLower req.filename = "doc" ∨ extLower req.filename = "docx"
          · cases conv with
            | ok => simp [preview_document_full, h1, h2, h4, h5]
            | calledProcessError => simp [preview_document_full, h1, h2, h4, h5]
            | fileNotFound => simp [preview_document_full, h1, h2, h4, h5]
            | otherException => exact absurd rfl hconv
          · by_cases h6 : extLower req.filename = "pdf"
            · simp [preview_document_full, h1, h2, h4, h5, h6]
            · simp [preview_document_full, h1, h2, h4, h5, h6]
        · simp [preview_document_full, h1, h2, h4]
  · intro env
    cases env <;> simp [get_printers]
  · intro job_id env
    cases env with
    | ok jobs => cases h : jobs.lookup job_id <;> simp [get_job_status, h]
    | runtimeError => simp [get_job_status]
    | otherException => simp [get_job_status]
  · intro req env hf hc hn hp ha hsave
    obtain ⟨cv, hcv⟩ := Option.ne_none_iff_exists'.mp hc
    simp [print_document_full, hf, hcv, hn, hp, ha, hsave]
  · intro req env hf hc hn hp ha hd hsave hoconv
    obtain ⟨cv, hcv⟩ := Option.ne_none_iff_exists'.mp hc
    rcases hd with hd | hd <;>
      simp [print_document_full, hf, hcv, hn, hp, ha, hd, hsave, hoconv]
  · intro req conv hf hn ha
    simp [preview_document_full, hf, hn, ha]

/-- Witness for the amended C3 at concrete inputs: a benign pdf print
request returns a response, while a save failure during print, a
subprocess exception of neither caught kind during a docx print, and a
save failure during preview each propagate uncaught. -/
theorem handler_uncaught_surface_witness :
    (print_document_full reqPdf envFullBenign).1 ≠ Outcome.raised ∧
    (print_document_full reqPdf envFullSaveRaises).1 = Outcome.raised ∧
    (print_document_full reqDoc envFullConvRaises).1 = Outcome.raised ∧
    (preview_document_full reqPrevDoc true ConvOutcome.ok).1 = Outcome.raised :=
  ⟨handler_uncaught_surface.1 reqPdf envFullBenign (by decide) rfl (by decide),
   handler_uncaught_surface.2.2.2.2.1 reqPdf envFullSaveRaises rfl (by decide) (by decide)
     (by decide) (by decide) rfl,
   handler_uncaught_surface.2.2.2.2.2.1 reqDoc envFullConvRaises rfl (by decide) (by decide)
     (by decide) (by decide) (by decide) rfl rfl,
   handler_uncaught_surface.2.2.2.2.2.2 reqPrevDoc ConvOutcome.ok rfl (by decide) (by decide)⟩

/-- C4 counterexample: on a docx print request the handler returns the
identical 500 response whether the conversion subprocess exited nonzero
or the conversion binary was missing, so the print handler does not
report the two failure modes distinguishably as the claim requires of
every conversion-invoking handler. -/
theorem conv_failure_modes_counterexample :
    (print_document reqDoc envConvErr).1 = (print_document reqDoc envConvMissing).1 ∧
    (print_document reqDoc envConvErr).1
      = Outcome.resp 500 (Resp.err ErrMsg.printConvFailed) := by
  decide

/-- C4 amended: only the preview handler distinguishes the missing
conversion binary from a failed conversion run, answering with two
different 500 messages; the print handler answers both failure modes
with one and the same generic 500 conversion error. -/
theorem conv_failure_modes_amended :
    (∀ req : PreviewForm, req.file_present = true → req.filename ≠ "" →
        allowed_file req.filename = true →
        (extLower req.filename = "doc" ∨ extLower req.filename = "docx") →
        (preview_document req ConvResult.fileNotFound).1
            = Outcome.resp 500 (Resp.err ErrMsg.convToolNotFound) ∧
        (preview_document req ConvResult.calledProcessError).1
            = Outcome.resp 500 (Resp.err ErrMsg.previewConvFailed) ∧
        ErrMsg.convToolNotFound ≠ ErrMsg.previewConvFailed) ∧
    (∀ (req : PrintForm) (cups : CupsEnv), req.file_present = true →
        copiesVal req.copies_raw ≠ none → req.filename ≠ "" →
        truthy req.printer = true → allowed_file req.filename = true →
        (extLower req.filename = "doc" ∨ extLower req.filename = "docx") →
        (print_document req { conv := ConvResult.fileNotFound, cups := cups }).1
            = Outcome.resp 500 (Resp.err ErrMsg.printConvFailed) ∧
        (print_document req { conv := ConvResult.calledProcessError, cups := cups }).1
            = Outcome.resp 500 (Resp.err ErrMsg.printConvFailed)) := by
  constructor
  · intro req hf hn ha hd
    rcases hd with hd | hd <;>
      exact ⟨by simp [preview_document, preview_document_full, ConvResult.lift, hf, hn, ha, hd],
             by simp [preview_document, preview_document_full, ConvResult.lift, hf, hn, ha, hd], by decide⟩
  · intro req cups hf hc hn hp ha hd
    obtain ⟨cv, hcv⟩ := Option.ne_none_iff_exists'.mp hc
    rcases hd with hd | hd <;>
      exact ⟨by simp [print_document, print_document_full, ConvResult.lift, hf, hcv, hn, hp, ha, hd],
             by simp [print_document, print_document_full, ConvResult.lift, hf, hcv, hn, hp, ha, hd]⟩

/-- Witness for the amended C4 on a concrete docx upload for both
endpoints and both failure modes. -/
theorem conv_failure_modes_amended_witness :
    ((preview_document reqPrevDoc ConvResult.fileNotFound).1
        = Outcome.resp 500 (Resp.err ErrMsg.convToolNotFound) ∧
      (preview_document reqPrevDoc ConvResult.calledProcessError).1
        = Outcome.resp 500 (Resp.err ErrMsg.previewConvFailed) ∧
      ErrMsg.convToolNotFound ≠ ErrMsg.previewConvFailed) ∧
    ((print_document reqDoc { conv := ConvResult.fileNotFound, cups := cupsOffice }).1
        = Outcome.resp 500 (Resp.err ErrMsg.printConvFailed) ∧
      (print_document reqDoc { conv := ConvResult.calledProcessError, cups := cupsOffice }).1
        = Outcome.resp 500 (Resp.err ErrMsg.printConvFailed)) :=
  ⟨conv_failure_modes_amended.1 reqPrevDoc rfl (by decide) (by decide) (by decide),
   conv_failure_modes_amended.2 reqDoc cupsOffice rfl (by decide) (by decide) (by decide)
     (by decide) (by decide)⟩

/-- The trace of submitToCups is its input trace, possibly extended by
one trailing job-submission event. -/
theorem submitToCups_trace (p f : String) (tr : List Event) (cups : CupsEnv) :
    (submitToCups p f tr cups).2 = tr ∨
    (submitToCups p f tr cups).2 = tr ++ [Event.printFile p f] := by
  cases cups with
  | runtimeError => left; rfl
  | connectFails => left; rfl
  | ok printers pr =>
    by_cases hm : p ∈ printers
    · cases pr <;> simp [submitToCups, hm]
    · simp [submitToCups, hm]

/-- C1: a print request carrying a doc or docx file that passes the
earlier validations produces a trace beginning with the file save
followed by exactly one conversion invocation, and every later event
(in particular any job submission) comes after that conversion; when
the conversion invocation fails — nonzero exit or missing binary — the
handler returns the 500 conversion error and the trace holds no job
submission at all. -/
theorem doc_conversion_once_before_submission (req : PrintForm) (env : PrintEnv)
    (hf : req.file_present = true)
    (hc : copiesVal req.copies_raw ≠ none)
    (hn : req.filename ≠ "")
    (hp : truthy req.printer = true)
    (ha : allowed_file req.filename = true)
    (hd : extLower req.filename = "doc" ∨ extLower req.filename = "docx") :
    (∃ tail, (print_document req env).2
        = Event.saveFile (uploadPath req.filename)
            :: Event.convert (uploadPath req.filename) :: tail ∧
      ∀ e ∈ tail, e.isConvert = false) ∧
    (env.conv ≠ ConvResult.ok →
      (print_document req env).1 = Outcome.resp 500 (Resp.err ErrMsg.printConvFailed) ∧
      ∀ e ∈ (print_document req env).2, e.isPrintFile = false) := by
  obtain ⟨cv, hcv⟩ := Option.ne_none_iff_exists'.mp hc
  obtain ⟨conv, cups⟩ := env
  have hred : print_document req ⟨conv, cups⟩ =
      (match conv with
       | ConvResult.ok =>
         submitToCups (req.printer.getD "") (convertedPdfPath req.filename)
           [Event.saveFile (uploadPath req.filename),
            Event.convert (uploadPath req.filename)] cups
       | ConvResult.calledProcessError =>
         (Outcome.resp 500 (Resp.err ErrMsg.printConvFailed),
          [Event.saveFile (uploadPath req.filename),
           Event.convert (uploadPath req.filename)])
       | ConvResult.fileNotFound =>
         (Outcome.resp 500 (Resp.err ErrMsg.printConvFailed),
          [Event.saveFile (uploadPath req.filename),
           Event.convert (uploadPath req.filename)])) := by
    rcases hd with hd | hd <;> cases conv <;>
      simp [print_document, print_document_full, ConvResult.lift, hf, hcv, hn, hp, ha, hd]
  rw [hred]
  cases conv with
  | ok =>
    constructor
    · rcases submitToCups_trace (req.printer.getD "") (convertedPdfPath req.filename)
        [Event.saveFile (uploadPath req.filename),
         Event.convert (uploadPath req.filename)] cups with htr | htr
      · exact ⟨[], by simpa using htr, by simp⟩
      · refine ⟨[Event.printFile (req.printer.getD "") (convertedPdfPath req.filename)],
          ?_, ?_⟩
        · simpa using htr
        · simp [Event.isConvert]
    · intro hne; exact absurd rfl hne
  | calledProcessError =>
    refine ⟨⟨[], rfl, by simp⟩, fun _ => ⟨rfl, ?_⟩⟩
    simp [Event.isPrintFile]
  | fileNotFound =>
    refine ⟨⟨[], rfl, by simp⟩, fun _ => ⟨rfl, ?_⟩⟩
    simp [Event.isPrintFile]

/-- Witness for C1: a docx print request against an environment whose
conversion subprocess exits nonzero. -/
theorem doc_conversion_once_before_submission_witness :
    (∃ tail, (print_document reqDoc envConvErr).2
        = Event.saveFile (uploadPath reqDoc.filename)
            :: Event.convert (uploadPath reqDoc.filename) :: tail ∧
      ∀ e ∈ tail, e.isConvert = false) ∧
    (envConvErr.conv ≠ ConvResult.ok →
      (print_document reqDoc envConvErr).1
          = Outcome.resp 500 (Resp.err ErrMsg.printConvFailed) ∧
      ∀ e ∈ (print_document reqDoc envConvErr).2, e.isPrintFile = false) :=
  doc_conversion_once_before_submission reqDoc envConvErr rfl (by decide) (by decide)
    (by decide) (by decide) (by decide)

/-- C7: a job-status request whose id is present in the service job
table reports the status string given by the state-code map — 3 pending,
4 pending-held, 5 processing, 6 processing-stopped, 7 canceled, 8
aborted, 9 completed, anything outside 3..9 unknown — and returns the
state-reasons field verbatim, or the literal none when it is absent. -/
theorem job_present_status_mapping (job_id : Nat) (jobs : List (Nat × JobAttrs))
    (attrs : JobAttrs) (h : jobs.lookup job_id = some attrs) :
    ∃ st rs, get_job_status job_id (JobsEnv.ok jobs)
        = Outcome.resp 200 (Resp.jobStatus job_id st rs) ∧
      (attrs.jobState = some 3 → st = "pending") ∧
      (attrs.jobState = some 4 → st = "pending-held") ∧
      (attrs.jobState = some 5 → st = "processing") ∧
      (attrs.jobState = some 6 → st = "processing-stopped") ∧
      (attrs.jobState = some 7 → st = "canceled") ∧
      (attrs.jobState = some 8 → st = "aborted") ∧
      (attrs.jobState = some 9 → st = "completed") ∧
      (∀ c : Int, attrs.jobState = some c → ¬(3 ≤ c ∧ c ≤ 9) → st = "unknown") ∧
      (∀ r, attrs.stateReasons = some r → rs = r) ∧
      (attrs.stateReasons = none → rs = "none") := by
  refine ⟨statusOf attrs.jobState, attrs.stateReasons.getD "none",
    by simp [get_job_status, h], ?_, ?_, ?_, ?_, ?_, ?_, ?_, ?_, ?_, ?_⟩
  · intro hs; rw [hs]; decide
  · intro hs; rw [hs]; decide
  · intro hs; rw [hs]; decide
  · intro hs; rw [hs]; decide
  · intro hs; rw [hs]; decide
  · intro hs; rw [hs]; decide
  · intro hs; rw [hs]; decide
  · intro c hs hrange
    rw [hs]
    have h3 : (c == (3 : Int)) = false := by simpa using (by omega : c ≠ 3)
    have h4 : (c == (4 : Int)) = false := by simpa using (by omega : c ≠ 4)
    have h5 : (c == (5 : Int)) = false := by simpa using (by omega : c ≠ 5)
    have h6 : (c == (6 : Int)) = false := by simpa using (by omega : c ≠ 6)
    have h7 : (c == (7 : Int)) = false := by simpa using (by omega : c ≠ 7)
    have h8 : (c == (8 : Int)) = false := by simpa using (by omega : c ≠ 8)
    have h9 : (c == (9 : Int)) = false := by simpa using (by omega : c ≠ 9)
    simp [statusOf, status_map, List.lookup, h3, h4, h5, h6, h7, h8, h9]
  · intro r hr; rw [hr]; rfl
  · intro hr; rw [hr]; rfl

/-- Witness for C7 at job id 7 whose table entry has state code 5 and a
reasons string. -/
theorem job_present_status_mapping_witness :
    ∃ st rs, get_job_status 7 (JobsEnv.ok [(7, attrsProcessing)])
        = Outcome.resp 200 (Resp.jobStatus 7 st rs) ∧
      (attrsProcessing.jobState = some 3 → st = "pending") ∧
      (attrsProcessing.jobState = some 4 → st = "pending-held") ∧
      (attrsProcessing.jobState = some 5 → st = "processing") ∧
      (attrsProcessing.jobState = some 6 → st = "processing-stopped") ∧
      (attrsProcessing.jobState = some 7 → st = "canceled") ∧
      (attrsProcessing.jobState = some 8 → st = "aborted") ∧
      (attrsProcessing.jobState = some 9 → st = "completed") ∧
      (∀ c : Int, attrsProcessing.jobState = some c → ¬(3 ≤ c ∧ c ≤ 9) → st = "unknown") ∧
      (∀ r, attrsProcessing.stateReasons = some r → rs = r) ∧
      (attrsProcessing.stateReasons = none → rs = "none") :=
  job_present_status_mapping 7 [(7, attrsProcessing)] attrsProcessing (by decide)

end LightPrint
